import Mathlib

/-!
Shallow embedding of the trading bot in
src/simple_hyperliquid_bot/simple_hl_bot.py.

Numbers are modelled with exact rationals.  Python exceptions are modelled
with an explicit error type and Except.  The exchange collaborator
(network calls of the hyperliquid client) is modelled as a structure of
response functions, and every order submission the code performs is
recorded in an explicit submission log, so that theorems can talk about
which orders were attempted.
-/

set_option maxRecDepth 8000

deriving instance DecidableEq for Except

/-- Strategy parameters: the module-level constants of the source
(lines 14-31).  They are gathered in a structure so that theorems can
quantify over them; the source values are in defaultConfig. -/
structure Config where
  RISK_PER_TRADE_PERCENT : ℚ
  STOP_LOSS_PERCENT : ℚ
  -- RISK_REWARD_RATIO in the source (line 20)
  RISK_REWARD : ℚ
deriving DecidableEq

/-- TAKE_PROFIT_PERCENT = STOP_LOSS_PERCENT * RISK_REWARD_RATIO (source line 27). -/
def Config.TAKE_PROFIT_PERCENT (cfg : Config) : ℚ :=
  cfg.STOP_LOSS_PERCENT * cfg.RISK_REWARD

/-- Source constants: RISK_PER_TRADE_PERCENT = 2, STOP_LOSS_PERCENT = 1.0,
RISK_REWARD_RATIO = 2 (hence TAKE_PROFIT_PERCENT = 2.0). -/
def defaultConfig : Config := ⟨2, 1, 2⟩

/-- DON_MAX_PERIOD = 12 (source line 30): donchian window length and
maxlen of the price deque. -/
def DON_MAX_PERIOD : ℕ := 12

/-- Python round() to an integer: round half to even.  Rat.floor is the
computable floor of the rational. -/
def pyRoundHalfEven (q : ℚ) : ℤ :=
  if q - (Rat.floor q : ℚ) < 1/2 then Rat.floor q
  else if 1/2 < q - (Rat.floor q : ℚ) then Rat.floor q + 1
  else if Rat.floor q % 2 = 0 then Rat.floor q else Rat.floor q + 1

/-- Python round(x, n) for a nonnegative number n of decimal places. -/
def roundTo (n : ℕ) (q : ℚ) : ℚ :=
  (pyRoundHalfEven (q * ((10 ^ n : ℕ) : ℚ)) : ℚ) / ((10 ^ n : ℕ) : ℚ)

/-- Python int() on a number: truncation toward zero. -/
def pyInt (q : ℚ) : ℤ :=
  if 0 ≤ q then Rat.floor q else -(Rat.floor (-q))

/-- Python min() over a list, None on the empty list (where Python raises). -/
def pymin : List ℚ → Option ℚ
  | [] => none
  | x :: xs => some (xs.foldl min x)

/-- Python max() over a list, None on the empty list (where Python raises). -/
def pymax : List ℚ → Option ℚ
  | [] => none
  | x :: xs => some (xs.foldl max x)

/-- The Python exceptions that can escape the embedded fragment. -/
inductive PyErr
  /-- a ValueError raised by a validation check -/
  | valueError
  /-- a NameError: a local variable read before assignment (in this code,
  min_position_size in the except handler of calculate_position_size) -/
  | nameError
deriving DecidableEq

/-- The except handler of calculate_position_size (source lines 75-80).
Python executes return min_position_size there; min_position_size is a
local of the try block, so when the exception was raised before line 68
assigned it, the return itself raises NameError (unbound local). -/
def except_handler (min_position_size : Option ℚ) : Except PyErr ℚ :=
  match min_position_size with
  | some m => Except.ok m
  | none => Except.error PyErr.nameError

/-- calculate_position_size (source lines 42-80).  The zero checks of
lines 54-58 raise ValueError before min_position_size is assigned
(line 68), so the except handler receives none and raises NameError.
After the checks the body cannot raise, so the remaining computation
returns normally: clamp to the minimum size, then round to 5 decimals. -/
def calculate_position_size (cfg : Config) (balance current_price : ℚ) :
    Except PyErr ℚ :=
  let risk_amount := balance * (cfg.RISK_PER_TRADE_PERCENT / 100)
  if cfg.STOP_LOSS_PERCENT = 0 then
    except_handler none
  else if current_price = 0 then
    except_handler none
  else
    let position_size := risk_amount / (current_price * cfg.STOP_LOSS_PERCENT / 100)
    let min_position_size : ℚ := 1/1000
    let adjusted :=
      if position_size < min_position_size then min_position_size else position_size
    Except.ok (roundTo 5 adjusted)

/-- Result of client.market_open: rejected (status not ok), ok but with a
malformed response (missing response/data/statuses fields, line 109), or
filled with an average fill price. -/
inductive MarketResult
  | rejected
  | okMalformed
  | filled (avgPx : ℚ)
deriving DecidableEq

/-- Result of client.order for a trigger order: ok, status not ok
(lines 147, 172), or a statuses[0] entry carrying an error
(lines 151, 176).  Both failure forms raise ValueError in the source. -/
inductive TriggerResult
  | ok
  | badStatus
  | errStatus
deriving DecidableEq

/-- Whether the trigger-order helper returned without raising. -/
def TriggerResult.succeeded : TriggerResult → Bool
  | .ok => true
  | _ => false

/-- The tpsl field of a trigger order: stop loss or take profit. -/
inductive Tpsl
  | sl
  | tp
deriving DecidableEq

/-- The exchange collaborator, as the embedded code observes it:
meta is the szDecimals of get_market_info (none when the asset is
unknown and line 39 raises); market_open and order are the responses to
the two kinds of submission.  Both call sites of client.order pass
limit_px = triggerPx, isMarket = true and reduce_only = true, so only
is_buy, size, price and the tpsl role vary. -/
structure Client where
  meta : Option ℕ
  market_open : Bool → ℚ → MarketResult
  order : Bool → ℚ → ℤ → Tpsl → TriggerResult

/-- get_market_info (source lines 33-40), reduced to the szDecimals the
callers use; none means the ValueError of line 39. -/
def get_market_info (c : Client) : Option ℕ := c.meta

/-- Which of the three orders of one trade attempt a submission is. -/
inductive Leg
  | entry
  | stop_loss
  | take_profit
deriving DecidableEq

/-- One order submission sent to the exchange. -/
structure Submission where
  leg : Leg
  is_buy : Bool
  sz : ℚ
  px : Option ℤ
  reduce_only : Bool
deriving DecidableEq

/-- Boolean test for an entry (market) submission. -/
def isEntry (s : Submission) : Bool := s.leg == Leg.entry

/-- Number of entry (market) submissions in a log. -/
def entriesIn (l : List Submission) : ℕ := (l.filter isEntry).length

/-- Every non-entry submission in the log is reduce-only. -/
def exitsReduceOnly (l : List Submission) : Bool :=
  l.all fun s => isEntry s || s.reduce_only

/-- Number of stop-loss submissions in a log. -/
def slCount (l : List Submission) : ℕ :=
  (l.filter fun s => s.leg == Leg.stop_loss).length

/-- Number of take-profit submissions in a log. -/
def tpCount (l : List Submission) : ℕ :=
  (l.filter fun s => s.leg == Leg.take_profit).length

/-- place_stop_loss (source lines 132-155): submits a reduce-only trigger
order with role sl at stop_price and raises unless the response is ok.
Returns the response together with the submission that was sent. -/
def place_stop_loss (c : Client) (position_size : ℚ) (stop_price : ℤ)
    (is_buy : Bool) : TriggerResult × Submission :=
  (c.order is_buy position_size stop_price Tpsl.sl,
   ⟨Leg.stop_loss, is_buy, position_size, some stop_price, true⟩)

/-- place_take_profit (source lines 157-180): same as place_stop_loss
with role tp. -/
def place_take_profit (c : Client) (position_size : ℚ) (take_profit_price : ℤ)
    (is_buy : Bool) : TriggerResult × Submission :=
  (c.order is_buy position_size take_profit_price Tpsl.tp,
   ⟨Leg.take_profit, is_buy, position_size, some take_profit_price, true⟩)

/-- buy (source lines 82-130).  All exceptions are caught by the
function's own try/except, which returns False; so a failure at any step
(market-info lookup, validation, entry order, stop-loss order,
take-profit order) stops the remaining steps and yields False.  The
second component is the list of order submissions actually sent. -/
def buy (cfg : Config) (c : Client) (position_size : ℚ) :
    Bool × List Submission :=
  match get_market_info c with
  | none => (false, [])
  | some sz_decimals =>
    if position_size ≤ 0 then (false, [])
    else
      let ps := roundTo sz_decimals position_size
      let entrySub : Submission := ⟨Leg.entry, true, ps, none, false⟩
      match c.market_open true ps with
      | MarketResult.rejected => (false, [entrySub])
      | MarketResult.okMalformed => (false, [entrySub])
      | MarketResult.filled avgPx =>
        let entry_price : ℤ := pyInt avgPx
        let stop_loss_price : ℤ :=
          pyInt ((entry_price : ℚ) * (1 - cfg.STOP_LOSS_PERCENT / 100))
        let take_profit_price : ℤ :=
          pyInt ((entry_price : ℚ) * (1 + cfg.TAKE_PROFIT_PERCENT / 100))
        let sl := place_stop_loss c ps stop_loss_price false
        if sl.1.succeeded then
          let tp := place_take_profit c ps take_profit_price false
          if tp.1.succeeded then (true, [entrySub, sl.2, tp.2])
          else (false, [entrySub, sl.2, tp.2])
        else (false, [entrySub, sl.2])

/-- sell (source lines 182-230): mirror image of buy with is_buy flipped
and the exit price formulas reflected around the entry price. -/
def sell (cfg : Config) (c : Client) (position_size : ℚ) :
    Bool × List Submission :=
  match get_market_info c with
  | none => (false, [])
  | some sz_decimals =>
    if position_size ≤ 0 then (false, [])
    else
      let ps := roundTo sz_decimals position_size
      let entrySub : Submission := ⟨Leg.entry, false, ps, none, false⟩
      match c.market_open false ps with
      | MarketResult.rejected => (false, [entrySub])
      | MarketResult.okMalformed => (false, [entrySub])
      | MarketResult.filled avgPx =>
        let entry_price : ℤ := pyInt avgPx
        let stop_loss_price : ℤ :=
          pyInt ((entry_price : ℚ) * (1 + cfg.STOP_LOSS_PERCENT / 100))
        let take_profit_price : ℤ :=
          pyInt ((entry_price : ℚ) * (1 - cfg.TAKE_PROFIT_PERCENT / 100))
        let sl := place_stop_loss c ps stop_loss_price true
        if sl.1.succeeded then
          let tp := place_take_profit c ps take_profit_price true
          if tp.1.succeeded then (true, [entrySub, sl.2, tp.2])
          else (false, [entrySub, sl.2, tp.2])
        else (false, [entrySub, sl.2])

/-- One append to collections.deque(maxlen = DON_MAX_PERIOD): when the
deque is full the oldest element is evicted. -/
def dequeAppend (w : List ℚ) (p : ℚ) : List ℚ :=
  if w.length < DON_MAX_PERIOD then w ++ [p] else w.tail ++ [p]

/-- The operations run_trading_strategy performs on the price deque. -/
inductive WOp
  | append (p : ℚ)
  | clear

/-- Apply one deque operation. -/
def applyOp (w : List ℚ) : WOp → List ℚ
  | WOp.append p => dequeAppend w p
  | WOp.clear => []

/-- Apply a sequence of deque operations. -/
def applyOps (w : List ℚ) (ops : List WOp) : List ℚ :=
  ops.foldl applyOp w

/-- What one polling cycle did. -/
inductive CycleAction
  /-- an open position exists: report only, no trading action -/
  | positionHeld
  /-- window not yet full: collect the price -/
  | collecting
  /-- full window, price inside the channel: no trade -/
  | noSignal
  /-- breakout above the channel: buy attempted, with its result -/
  | longTrade (result : Bool)
  /-- breakout below the channel: sell attempted, with its result -/
  | shortTrade (result : Bool)
  /-- an exception escaped the cycle (propagates to the loop's handler) -/
  | errored (e : PyErr)
deriving DecidableEq

/-- run_trading_strategy (source lines 240-307) for one cycle, without
the network reads: position_szi is the szi of the open position (if
any), balance and current_price are the fetched account value and mid
price, last_prices is the deque.  Returns what happened and the deque
contents afterwards.  Note the source clears the deque after buy/sell
regardless of their boolean result, and line 307 appends current_price
on every path that did not return early. -/
def run_trading_strategy (cfg : Config) (c : Client) (position_szi : Option ℚ)
    (balance current_price : ℚ) (last_prices : List ℚ) :
    CycleAction × List ℚ :=
  if position_szi.getD 0 ≠ 0 then (CycleAction.positionHeld, last_prices)
  else if last_prices.length < DON_MAX_PERIOD then
    (CycleAction.collecting, dequeAppend last_prices current_price)
  else
    match pymin last_prices, pymax last_prices with
    | some min_price, some max_price =>
      match calculate_position_size cfg balance current_price with
      | Except.error e => (CycleAction.errored e, last_prices)
      | Except.ok position_size =>
        if current_price > max_price then
          (CycleAction.longTrade (buy cfg c position_size).1,
           dequeAppend [] current_price)
        else if current_price < min_price then
          (CycleAction.shortTrade (sell cfg c position_size).1,
           dequeAppend [] current_price)
        else (CycleAction.noSignal, dequeAppend last_prices current_price)
    | _, _ => (CycleAction.errored PyErr.valueError, last_prices)

/-- The signal enumeration of the spec. -/
inductive Signal
  | NONE
  | LONG
  | SHORT
deriving DecidableEq

/-- The breakout signal rule of run_trading_strategy, extracted from its
branch structure (lines 273, 294, 300): NONE while the window is not
full, otherwise LONG on a strict breakout above max, SHORT on a strict
breakdown below min, NONE inside the channel. -/
def signal (last_prices : List ℚ) (current_price : ℚ) : Signal :=
  if last_prices.length < DON_MAX_PERIOD then Signal.NONE
  else
    match pymin last_prices, pymax last_prices with
    | some min_price, some max_price =>
      if current_price > max_price then Signal.LONG
      else if current_price < min_price then Signal.SHORT
      else Signal.NONE
    | _, _ => Signal.NONE

/-- The sizing rule exactly as claim C8 words it: compute the raw
quantity, round it to the asset's size-decimal precision, then clamp the
rounded quantity up to minSize. -/
def sizing_spec (szDec : ℕ) (balance riskPercent price stopLossPercent minSize : ℚ) : ℚ :=
  let riskAmount := balance * riskPercent / 100
  let quantity := riskAmount / (price * stopLossPercent / 100)
  let rounded := roundTo szDec quantity
  if rounded < minSize then minSize else rounded

/-- A client on which every request fails: the asset is unknown, orders
are rejected. -/
def cFail : Client :=
  ⟨none, fun _ _ => MarketResult.rejected, fun _ _ _ _ => TriggerResult.badStatus⟩

/-- A client on which every request succeeds; fills report avgPx 100. -/
def cOk : Client :=
  ⟨some 5, fun _ _ => MarketResult.filled 100, fun _ _ _ _ => TriggerResult.ok⟩

/-- A client whose entry order fills at 100 but whose stop-loss orders
are rejected (take-profit orders would succeed). -/
def c1client : Client :=
  ⟨some 5, fun _ _ => MarketResult.filled 100,
   fun _ _ _ role =>
     match role with
     | Tpsl.sl => TriggerResult.badStatus
     | Tpsl.tp => TriggerResult.ok⟩

/-- A client whose entry and stop-loss orders succeed but whose
take-profit orders report an error status. -/
def c9client : Client :=
  ⟨some 5, fun _ _ => MarketResult.filled 100,
   fun _ _ _ role =>
     match role with
     | Tpsl.sl => TriggerResult.ok
     | Tpsl.tp => TriggerResult.errStatus⟩

/-- A client for an asset with szDecimals = 2, everything succeeding. -/
def c8client : Client :=
  ⟨some 2, fun _ _ => MarketResult.filled 100, fun _ _ _ _ => TriggerResult.ok⟩

/-- A full window whose minimum is 90 and maximum is 110. -/
def w0 : List ℚ :=
  [90, 110, 100, 100, 100, 100, 100, 100, 100, 100, 100, 100]

/-! ### Helper lemmas -/

/-- The computable rational floor is a lower bound. -/
theorem ratFloor_le (q : ℚ) : (Rat.floor q : ℚ) ≤ q :=
  Rat.le_floor.mp (le_refl _)

/-- Rounding half to even never goes below the floor. -/
theorem floor_le_pyRoundHalfEven (q : ℚ) : Rat.floor q ≤ pyRoundHalfEven q := by
  unfold pyRoundHalfEven
  split
  · exact le_refl _
  · split
    · omega
    · split <;> omega

/-- Any integer lower bound of q bounds its half-even rounding. -/
theorem le_pyRoundHalfEven (a : ℤ) (q : ℚ) (h : (a : ℚ) ≤ q) :
    a ≤ pyRoundHalfEven q :=
  le_trans (Rat.le_floor.mpr h) (floor_le_pyRoundHalfEven q)

/-- Rounding to 5 decimals preserves the minimum-size floor 1/1000. -/
theorem roundTo5_min (x : ℚ) (hx : 1/1000 ≤ x) : 1/1000 ≤ roundTo 5 x := by
  have h10 : ((10 ^ 5 : ℕ) : ℚ) = 100000 := by norm_num
  unfold roundTo
  rw [h10]
  have h1 : (100 : ℤ) ≤ pyRoundHalfEven (x * 100000) := by
    apply le_pyRoundHalfEven
    push_cast
    linarith
  have h2 : (100 : ℚ) ≤ (pyRoundHalfEven (x * 100000) : ℚ) := by
    exact_mod_cast h1
  linarith

/-- Clamping written with an if equals max. -/
theorem if_lt_eq_max (q m : ℚ) : (if q < m then m else q) = max q m := by
  rcases lt_or_le q m with h | h
  · rw [if_pos h, max_eq_right h.le]
  · rw [if_neg (not_lt.mpr h), max_eq_left h]

/-- With nonzero stop loss and price, calculate_position_size returns
normally: the raw quantity clamped up to 1/1000 and rounded to 5 places. -/
theorem calc_ok (cfg : Config) (b p : ℚ)
    (hS : cfg.STOP_LOSS_PERCENT ≠ 0) (hp : p ≠ 0) :
    calculate_position_size cfg b p =
      Except.ok (roundTo 5
        (max (b * (cfg.RISK_PER_TRADE_PERCENT / 100) /
              (p * cfg.STOP_LOSS_PERCENT / 100)) (1/1000))) := by
  simp only [calculate_position_size, if_neg hS, if_neg hp, if_lt_eq_max]

/-- Every normal result of calculate_position_size is at least 1/1000. -/
theorem calc_min_bound (cfg : Config) (b p v : ℚ)
    (h : calculate_position_size cfg b p = Except.ok v) : 1/1000 ≤ v := by
  by_cases hS : cfg.STOP_LOSS_PERCENT = 0
  · simp [calculate_position_size, hS, except_handler] at h
  · by_cases hp : p = 0
    · simp [calculate_position_size, hS, hp, except_handler] at h
    · rw [calc_ok cfg b p hS hp] at h
      have hv := Except.ok.inj h
      subst hv
      exact roundTo5_min _ (le_max_right _ _)

/-- When the stop loss percent or the current price is zero, the except
handler of calculate_position_size reads the unassigned local
min_position_size and the call raises NameError. -/
theorem calc_err_of_zero (cfg : Config) (b p : ℚ)
    (h : cfg.STOP_LOSS_PERCENT = 0 ∨ p = 0) :
    calculate_position_size cfg b p = Except.error PyErr.nameError := by
  rcases h with h | h
  · simp [calculate_position_size, h, except_handler]
  · by_cases hS : cfg.STOP_LOSS_PERCENT = 0 <;>
      simp [calculate_position_size, hS, h, except_handler]

/-! ### Claim theorems -/

/-- Claim C4, corrected: with stopLossPercent = 0 or currentPrice = 0 the
sizing call does fail, but the error that escapes is the NameError from
the handler's unbound min_position_size, not the validation error, and
no fallback mode exists: the minimum size is never returned for these
inputs. -/
theorem c4_theorem (cfg : Config) (b p : ℚ)
    (h : cfg.STOP_LOSS_PERCENT = 0 ∨ p = 0) :
    calculate_position_size cfg b p = Except.error PyErr.nameError ∧
    calculate_position_size cfg b p ≠ Except.error PyErr.valueError ∧
    ∀ v : ℚ, calculate_position_size cfg b p ≠ Except.ok v := by
  have h1 := calc_err_of_zero cfg b p h
  refine ⟨h1, ?_, ?_⟩
  · rw [h1]
    simp
  · intro v
    rw [h1]
    simp

/-- Claim C4: concrete refutation of the claim as stated.  At
currentPrice = 0 the result is the NameError of the unbound fallback
local, not the invalid-input ValueError the claim names (and not a
returned minimum size). -/
theorem c4_counterexample :
    calculate_position_size defaultConfig 1000 0 = Except.error PyErr.nameError ∧
    calculate_position_size defaultConfig 1000 0 ≠ Except.error PyErr.valueError := by
  constructor
  · with_unfolding_all rfl
  · with_unfolding_all decide

/-- Claim C4: witness instantiating c4_theorem at currentPrice = 0. -/
theorem c4_witness :
    calculate_position_size defaultConfig 1000 0 = Except.error PyErr.nameError ∧
    calculate_position_size defaultConfig 1000 0 ≠ Except.ok (1/25) :=
  ⟨(c4_theorem defaultConfig 1000 0 (Or.inr rfl)).1,
   (c4_theorem defaultConfig 1000 0 (Or.inr rfl)).2.2 (1/25)⟩

/-- Claim C5, confirmed: when the zero-stop-loss or zero-price validation
fires, the except handler's return of min_position_size itself raises
NameError (the local is unbound there), so calculate_position_size
raises instead of returning the minimum-size fallback. -/
theorem c5_theorem (cfg : Config) (b p : ℚ)
    (h : cfg.STOP_LOSS_PERCENT = 0 ∨ p = 0) :
    except_handler none = Except.error PyErr.nameError ∧
    calculate_position_size cfg b p = Except.error PyErr.nameError ∧
    ∀ v : ℚ, calculate_position_size cfg b p ≠ Except.ok v := by
  have h1 := calc_err_of_zero cfg b p h
  refine ⟨rfl, h1, ?_⟩
  intro v
  rw [h1]
  simp

/-- Claim C5: witness instantiating c5_theorem at currentPrice = 0. -/
theorem c5_witness :
    except_handler none = Except.error PyErr.nameError ∧
    calculate_position_size defaultConfig 500 0 = Except.error PyErr.nameError :=
  ⟨(c5_theorem defaultConfig 500 0 (Or.inr rfl)).1,
   (c5_theorem defaultConfig 500 0 (Or.inr rfl)).2.1⟩

/-- Claim C8, corrected: calculate_position_size clamps the raw quantity
up to the minimum size 1/1000 before rounding, and rounds to a fixed 5
decimal places (the size-decimal rounding of the asset happens later, in
buy, without re-clamping); every normal result is at least the minimum
size, and the documented example balance=1000, risk=2 percent,
price=50000, stop loss=1 percent yields 0.04. -/
theorem c8_theorem (cfg : Config) (b p : ℚ)
    (hS : cfg.STOP_LOSS_PERCENT ≠ 0) (hp : p ≠ 0) :
    calculate_position_size cfg b p =
      Except.ok (roundTo 5
        (max (b * (cfg.RISK_PER_TRADE_PERCENT / 100) /
              (p * cfg.STOP_LOSS_PERCENT / 100)) (1/1000))) ∧
    (∀ v : ℚ, calculate_position_size cfg b p = Except.ok v → 1/1000 ≤ v) ∧
    calculate_position_size defaultConfig 1000 50000 = Except.ok (1/25) := by
  refine ⟨calc_ok cfg b p hS hp, fun v hv => calc_min_bound cfg b p v hv, ?_⟩
  with_unfolding_all rfl

/-- Claim C8: witness instantiating c8_theorem at the documented example. -/
theorem c8_witness :
    calculate_position_size defaultConfig 1000 50000 =
      Except.ok (roundTo 5
        (max (1000 * (defaultConfig.RISK_PER_TRADE_PERCENT / 100) /
              (50000 * defaultConfig.STOP_LOSS_PERCENT / 100)) (1/1000))) ∧
    calculate_position_size defaultConfig 1000 50000 = Except.ok (1/25) :=
  ⟨(c8_theorem defaultConfig 1000 50000 (by norm_num [defaultConfig])
      (by norm_num)).1,
   (c8_theorem defaultConfig 1000 50000 (by norm_num [defaultConfig])
      (by norm_num)).2.2⟩

/-- Claim C8: concrete refutation of the claim as stated.  With
szDecimals = 2 and balance = 1, the raw quantity is 0.00004; the code
clamps it to 0.001, rounds to 5 places, and buy then rounds to 2 places,
submitting size 0 — while the claim's round-then-clamp rule yields the
minimum size 0.001. -/
theorem c8_counterexample :
    calculate_position_size defaultConfig 1 50000 = Except.ok (1/1000) ∧
    (buy defaultConfig c8client (1/1000)).2.head? =
      some ⟨Leg.entry, true, 0, none, false⟩ ∧
    sizing_spec 2 1 2 50000 1 (1/1000) = 1/1000 ∧
    (0 : ℚ) ≠ 1/1000 :=
  ⟨by with_unfolding_all rfl, by with_unfolding_all rfl,
   by with_unfolding_all rfl, by norm_num⟩

/-- A fold of min never exceeds its initial value. -/
theorem foldl_min_le (xs : List ℚ) (x : ℚ) : xs.foldl min x ≤ x := by
  induction xs generalizing x with
  | nil => simp [List.foldl]
  | cons a as ih =>
    simp only [List.foldl]
    exact le_trans (ih (min x a)) (min_le_left x a)

/-- A fold of max is at least its initial value. -/
theorem le_foldl_max (xs : List ℚ) (x : ℚ) : x ≤ xs.foldl max x := by
  induction xs generalizing x with
  | nil => simp [List.foldl]
  | cons a as ih =>
    simp only [List.foldl]
    exact le_trans (le_max_left x a) (ih (max x a))

/-- The minimum of a window never exceeds its maximum. -/
theorem pymin_le_pymax (w : List ℚ) (lo hi : ℚ)
    (hmn : pymin w = some lo) (hmx : pymax w = some hi) : lo ≤ hi := by
  cases w with
  | nil => simp [pymin] at hmn
  | cons x xs =>
    simp only [pymin, Option.some.injEq] at hmn
    simp only [pymax, Option.some.injEq] at hmx
    rw [← hmn, ← hmx]
    exact le_trans (foldl_min_le xs x) (le_foldl_max xs x)

/-- Claim C6, confirmed: the signal is NONE for every current price while
the window is not full; on a full window with minimum lo and maximum hi
it is LONG exactly when the price is strictly above hi, SHORT exactly
when strictly below lo, NONE exactly inside the closed channel, and in
particular NONE at either boundary (strict inequality only). -/
theorem c6_theorem (w : List ℚ) (p lo hi : ℚ) :
    (w.length < DON_MAX_PERIOD → signal w p = Signal.NONE) ∧
    (w.length = DON_MAX_PERIOD → pymin w = some lo → pymax w = some hi →
      ((signal w p = Signal.LONG ↔ hi < p) ∧
       (signal w p = Signal.SHORT ↔ p < lo) ∧
       (signal w p = Signal.NONE ↔ lo ≤ p ∧ p ≤ hi) ∧
       ((p = hi ∨ p = lo) → signal w p = Signal.NONE))) := by
  constructor
  · intro h
    simp [signal, h]
  · intro hlen hmn hmx
    have hlh : lo ≤ hi := pymin_le_pymax w lo hi hmn hmx
    have hnf : ¬ w.length < DON_MAX_PERIOD := by omega
    have hsig : signal w p =
        (if hi < p then Signal.LONG
         else if p < lo then Signal.SHORT else Signal.NONE) := by
      unfold signal
      rw [if_neg hnf, hmn, hmx]
    rw [hsig]
    by_cases h1 : hi < p
    · rw [if_pos h1]
      refine ⟨⟨fun _ => h1, fun _ => rfl⟩,
              ⟨fun hc => Signal.noConfusion hc, fun hc => absurd hc (by linarith)⟩,
              ⟨fun hc => Signal.noConfusion hc, fun hc => absurd hc.2 (by linarith)⟩,
              fun hc => ?_⟩
      rcases hc with rfl | rfl
      · exact absurd h1 (lt_irrefl _)
      · exact absurd h1 (not_lt.mpr hlh)
    · rw [if_neg h1]
      by_cases h2 : p < lo
      · rw [if_pos h2]
        refine ⟨⟨fun hc => Signal.noConfusion hc, fun hc => absurd hc h1⟩,
                ⟨fun _ => h2, fun _ => rfl⟩,
                ⟨fun hc => Signal.noConfusion hc, fun hc => absurd hc.1 (by linarith)⟩,
                fun hc => ?_⟩
        rcases hc with rfl | rfl
        · exact absurd h2 (by linarith)
        · exact absurd h2 (lt_irrefl _)
      · rw [if_neg h2]
        exact ⟨⟨fun hc => Signal.noConfusion hc, fun hc => absurd hc h1⟩,
               ⟨fun hc => Signal.noConfusion hc, fun hc => absurd hc h2⟩,
               ⟨fun _ => ⟨not_lt.mp h2, not_lt.mp h1⟩, fun _ => rfl⟩,
               fun _ => rfl⟩

/-- Claim C6: witness on the spec's example channel min = 90, max = 110:
an empty window gives NONE, price 111 above the full window gives LONG,
price 89 gives SHORT, and the boundary price 110 gives NONE. -/
theorem c6_witness :
    signal [] 5 = Signal.NONE ∧
    signal w0 111 = Signal.LONG ∧
    signal w0 89 = Signal.SHORT ∧
    signal w0 110 = Signal.NONE := by
  refine ⟨(c6_theorem [] 5 90 110).1 (by norm_num [DON_MAX_PERIOD]), ?_, ?_, ?_⟩
  · exact ((c6_theorem w0 111 90 110).2 (by with_unfolding_all rfl)
      (by with_unfolding_all rfl) (by with_unfolding_all rfl)).1.mpr (by norm_num)
  · exact ((c6_theorem w0 89 90 110).2 (by with_unfolding_all rfl)
      (by with_unfolding_all rfl) (by with_unfolding_all rfl)).2.1.mpr (by norm_num)
  · exact ((c6_theorem w0 110 90 110).2 (by with_unfolding_all rfl)
      (by with_unfolding_all rfl) (by with_unfolding_all rfl)).2.2.2 (Or.inl rfl)

/-- applyOps distributes over a leading operation. -/
theorem applyOps_cons (w : List ℚ) (op : WOp) (ops : List WOp) :
    applyOps w (op :: ops) = applyOps (applyOp w op) ops := rfl

/-- Appending while below capacity is a plain list append. -/
theorem applyOps_appends : ∀ (ps : List ℚ) (w : List ℚ),
    w.length + ps.length ≤ DON_MAX_PERIOD →
    applyOps w (ps.map WOp.append) = w ++ ps
  | [], w, _ => by simp [applyOps]
  | p :: ps, w, h => by
    have hlt : w.length < DON_MAX_PERIOD := by
      simp only [List.length_cons] at h
      omega
    rw [List.map_cons, applyOps_cons]
    have h1 : applyOp w (WOp.append p) = w ++ [p] := by
      simp [applyOp, dequeAppend, hlt]
    rw [h1, applyOps_appends ps (w ++ [p])
      (by simp only [List.length_append, List.length_cons, List.length_nil] at h ⊢; omega)]
    simp

/-- One deque append preserves the capacity bound. -/
theorem dequeAppend_length_le (w : List ℚ) (p : ℚ)
    (h : w.length ≤ DON_MAX_PERIOD) :
    (dequeAppend w p).length ≤ DON_MAX_PERIOD := by
  unfold dequeAppend
  split
  · rename_i hlt
    simp only [List.length_append, List.length_cons, List.length_nil]
    omega
  · rename_i hge
    have hD : DON_MAX_PERIOD = 12 := rfl
    simp only [List.length_append, List.length_tail, List.length_cons, List.length_nil]
    rw [hD] at h hge ⊢
    omega

/-- Any sequence of deque operations preserves the capacity bound. -/
theorem applyOps_length_le : ∀ (ops : List WOp) (w : List ℚ),
    w.length ≤ DON_MAX_PERIOD → (applyOps w ops).length ≤ DON_MAX_PERIOD
  | [], _, h => h
  | op :: ops, w, h => by
    rw [applyOps_cons]
    apply applyOps_length_le ops
    cases op with
    | append p => exact dequeAppend_length_le w p h
    | clear => simp [applyOp, DON_MAX_PERIOD]

/-- Claim C10, confirmed: appending at most N = 12 prices to the empty
deque yields exactly those prices (so the length equals the count
appended); appending to a full deque evicts exactly the oldest element;
and the length never exceeds N under any sequence of appends and clears
starting within capacity. -/
theorem c10_theorem :
    (∀ ps : List ℚ, ps.length ≤ DON_MAX_PERIOD →
      applyOps [] (ps.map WOp.append) = ps) ∧
    (∀ (x p : ℚ) (xs : List ℚ), (x :: xs).length = DON_MAX_PERIOD →
      dequeAppend (x :: xs) p = xs ++ [p]) ∧
    (∀ (w : List ℚ) (ops : List WOp), w.length ≤ DON_MAX_PERIOD →
      (applyOps w ops).length ≤ DON_MAX_PERIOD) := by
  refine ⟨fun ps h => ?_, fun x p xs h => ?_,
          fun w ops h => applyOps_length_le ops w h⟩
  · have := applyOps_appends ps [] (by simpa using h)
    simpa using this
  · have hnl : ¬ ((x :: xs).length < DON_MAX_PERIOD) := by
      rw [h]
      exact lt_irrefl _
    unfold dequeAppend
    rw [if_neg hnl]
    simp

/-- Claim C10: witness at concrete inputs: three appends to the empty
deque keep all three prices, an append to a full deque of twelve sevens
drops the oldest seven, and a mixed sequence respects the bound. -/
theorem c10_witness :
    applyOps [] ([1, 2, 3].map WOp.append) = [1, 2, 3] ∧
    dequeAppend (List.replicate 12 7) 9 = List.replicate 11 7 ++ [9] ∧
    (applyOps (List.replicate 12 7)
      [WOp.append 1, WOp.clear, WOp.append 2]).length ≤ DON_MAX_PERIOD := by
  refine ⟨c10_theorem.1 [1, 2, 3] (by norm_num [DON_MAX_PERIOD]), ?_,
          c10_theorem.2.2 _ _ (by simp [DON_MAX_PERIOD])⟩
  have h12 : List.replicate 12 (7 : ℚ) = 7 :: List.replicate 11 7 := rfl
  rw [h12]
  exact c10_theorem.2.1 7 9 (List.replicate 11 7) (by simp [DON_MAX_PERIOD])

/-- Claim C1, corrected: when the entry market order fills but the
stop-loss submission fails, buy's try/except catches the raised error,
so the take-profit order is NOT attempted and the whole call returns
plain False (no distinct unprotected-position error): a stop-loss
failure short-circuits the rest of the attempt just like an entry
failure.  The submission log stops at the failed stop-loss. -/
theorem c1_theorem (cfg : Config) (c : Client) (ps : ℚ) (d : ℕ) (apx : ℚ)
    (hm : c.meta = some d) (hps : 0 < ps)
    (he : c.market_open true (roundTo d ps) = MarketResult.filled apx)
    (hsl : (c.order false (roundTo d ps)
        (pyInt ((pyInt apx : ℚ) * (1 - cfg.STOP_LOSS_PERCENT / 100)))
        Tpsl.sl).succeeded = false) :
    buy cfg c ps =
      (false,
       [⟨Leg.entry, true, roundTo d ps, none, false⟩,
        ⟨Leg.stop_loss, false, roundTo d ps,
          some (pyInt ((pyInt apx : ℚ) * (1 - cfg.STOP_LOSS_PERCENT / 100))), true⟩]) := by
  simp [buy, get_market_info, place_stop_loss, hm, he, hsl, not_le.mpr hps]

/-- Claim C1: concrete refutation of the claim as stated.  On a client
whose entry fills and whose stop-loss order is rejected, buy submits no
take-profit order at all and returns plain False. -/
theorem c1_counterexample :
    (buy defaultConfig c1client 1).1 = false ∧
    tpCount (buy defaultConfig c1client 1).2 = 0 ∧
    slCount (buy defaultConfig c1client 1).2 = 1 := by
  refine ⟨?_, ?_, ?_⟩ <;> with_unfolding_all rfl

/-- Claim C1: witness instantiating c1_theorem on the client whose
stop-loss orders are rejected. -/
theorem c1_witness :
    buy defaultConfig c1client 1 =
      (false,
       [⟨Leg.entry, true, roundTo 5 1, none, false⟩,
        ⟨Leg.stop_loss, false, roundTo 5 1,
          some (pyInt ((pyInt 100 : ℚ) *
            (1 - defaultConfig.STOP_LOSS_PERCENT / 100))), true⟩]) :=
  c1_theorem defaultConfig c1client 1 5 100 rfl (by norm_num) rfl rfl

/-- Claim C7, confirmed: for a filled entry the exit trigger prices are
derived from the integer-truncated fill price, with
T = S * RISK_REWARD_RATIO: a long entry places its stop at
trunc(entry * (1 - S/100)) and its take profit at
trunc(entry * (1 + T/100)); a short entry places its stop at
trunc(entry * (1 + S/100)) and its take profit at
trunc(entry * (1 - T/100)); all truncated to integer price units. -/
theorem c7_theorem (cfg : Config) (c : Client) (ps : ℚ) (d : ℕ) (apx : ℚ)
    (hm : c.meta = some d) (hps : 0 < ps) :
    (c.market_open true (roundTo d ps) = MarketResult.filled apx →
      (c.order false (roundTo d ps)
        (pyInt ((pyInt apx : ℚ) * (1 - cfg.STOP_LOSS_PERCENT / 100)))
        Tpsl.sl).succeeded = true →
      (buy cfg c ps).2 =
        [⟨Leg.entry, true, roundTo d ps, none, false⟩,
         ⟨Leg.stop_loss, false, roundTo d ps,
           some (pyInt ((pyInt apx : ℚ) * (1 - cfg.STOP_LOSS_PERCENT / 100))), true⟩,
         ⟨Leg.take_profit, false, roundTo d ps,
           some (pyInt ((pyInt apx : ℚ) *
             (1 + cfg.STOP_LOSS_PERCENT * cfg.RISK_REWARD / 100))), true⟩]) ∧
    (c.market_open false (roundTo d ps) = MarketResult.filled apx →
      (c.order true (roundTo d ps)
        (pyInt ((pyInt apx : ℚ) * (1 + cfg.STOP_LOSS_PERCENT / 100)))
        Tpsl.sl).succeeded = true →
      (sell cfg c ps).2 =
        [⟨Leg.entry, false, roundTo d ps, none, false⟩,
         ⟨Leg.stop_loss, true, roundTo d ps,
           some (pyInt ((pyInt apx : ℚ) * (1 + cfg.STOP_LOSS_PERCENT / 100))), true⟩,
         ⟨Leg.take_profit, true, roundTo d ps,
           some (pyInt ((pyInt apx : ℚ) *
             (1 - cfg.STOP_LOSS_PERCENT * cfg.RISK_REWARD / 100))), true⟩]) := by
  constructor
  · intro he hsl
    cases htp : (c.order false (roundTo d ps)
        (pyInt ((pyInt apx : ℚ) * (1 + cfg.STOP_LOSS_PERCENT * cfg.RISK_REWARD / 100)))
        Tpsl.tp).succeeded <;>
      simp [buy, get_market_info, place_stop_loss, place_take_profit,
            Config.TAKE_PROFIT_PERCENT, hm, he, hsl, htp, not_le.mpr hps]
  · intro he hsl
    cases htp : (c.order true (roundTo d ps)
        (pyInt ((pyInt apx : ℚ) * (1 - cfg.STOP_LOSS_PERCENT * cfg.RISK_REWARD / 100)))
        Tpsl.tp).succeeded <;>
      simp [sell, get_market_info, place_stop_loss, place_take_profit,
            Config.TAKE_PROFIT_PERCENT, hm, he, hsl, htp, not_le.mpr hps]

/-- Claim C7: witness instantiating c7_theorem on the all-ok client with
fill price 100: long exits at 99 and 102, short exits at 101 and 98. -/
theorem c7_witness :
    (buy defaultConfig cOk 1).2 =
      [⟨Leg.entry, true, roundTo 5 1, none, false⟩,
       ⟨Leg.stop_loss, false, roundTo 5 1,
         some (pyInt ((pyInt 100 : ℚ) *
           (1 - defaultConfig.STOP_LOSS_PERCENT / 100))), true⟩,
       ⟨Leg.take_profit, false, roundTo 5 1,
         some (pyInt ((pyInt 100 : ℚ) *
           (1 + defaultConfig.STOP_LOSS_PERCENT * defaultConfig.RISK_REWARD / 100))),
         true⟩] ∧
    (sell defaultConfig cOk 1).2 =
      [⟨Leg.entry, false, roundTo 5 1, none, false⟩,
       ⟨Leg.stop_loss, true, roundTo 5 1,
         some (pyInt ((pyInt 100 : ℚ) *
           (1 + defaultConfig.STOP_LOSS_PERCENT / 100))), true⟩,
       ⟨Leg.take_profit, true, roundTo 5 1,
         some (pyInt ((pyInt 100 : ℚ) *
           (1 - defaultConfig.STOP_LOSS_PERCENT * defaultConfig.RISK_REWARD / 100))),
         true⟩] :=
  ⟨(c7_theorem defaultConfig cOk 1 5 100 rfl (by norm_num)).1 rfl rfl,
   (c7_theorem defaultConfig cOk 1 5 100 rfl (by norm_num)).2 rfl rfl⟩

/-- Claim C9, confirmed: when the entry fills and an exit order then
fails, no compensating close is submitted: the call reports failure, the
log holds exactly one market (entry) submission, and every other
submission is reduce-only — the position is left open with the error
surfaced, not repaired. -/
theorem c9_theorem (cfg : Config) (c : Client) (ps : ℚ) (d : ℕ) (apx : ℚ)
    (hm : c.meta = some d) (hps : 0 < ps) :
    (c.market_open true (roundTo d ps) = MarketResult.filled apx →
      ((c.order false (roundTo d ps)
          (pyInt ((pyInt apx : ℚ) * (1 - cfg.STOP_LOSS_PERCENT / 100)))
          Tpsl.sl).succeeded = false ∨
       (c.order false (roundTo d ps)
          (pyInt ((pyInt apx : ℚ) * (1 + cfg.TAKE_PROFIT_PERCENT / 100)))
          Tpsl.tp).succeeded = false) →
      (buy cfg c ps).1 = false ∧
      entriesIn (buy cfg c ps).2 = 1 ∧
      exitsReduceOnly (buy cfg c ps).2 = true) ∧
    (c.market_open false (roundTo d ps) = MarketResult.filled apx →
      ((c.order true (roundTo d ps)
          (pyInt ((pyInt apx : ℚ) * (1 + cfg.STOP_LOSS_PERCENT / 100)))
          Tpsl.sl).succeeded = false ∨
       (c.order true (roundTo d ps)
          (pyInt ((pyInt apx : ℚ) * (1 - cfg.TAKE_PROFIT_PERCENT / 100)))
          Tpsl.tp).succeeded = false) →
      (sell cfg c ps).1 = false ∧
      entriesIn (sell cfg c ps).2 = 1 ∧
      exitsReduceOnly (sell cfg c ps).2 = true) := by
  constructor
  · intro he hfail
    cases hsl : (c.order false (roundTo d ps)
        (pyInt ((pyInt apx : ℚ) * (1 - cfg.STOP_LOSS_PERCENT / 100)))
        Tpsl.sl).succeeded with
    | false =>
      simp [buy, get_market_info, place_stop_loss, place_take_profit, hm, he, hsl,
            not_le.mpr hps, entriesIn, exitsReduceOnly, isEntry]
    | true =>
      rcases hfail with hsl2 | htp
      · rw [hsl] at hsl2
        exact absurd hsl2 (by simp)
      · simp [buy, get_market_info, place_stop_loss, place_take_profit, hm, he, hsl,
              htp, not_le.mpr hps, entriesIn, exitsReduceOnly, isEntry]
  · intro he hfail
    cases hsl : (c.order true (roundTo d ps)
        (pyInt ((pyInt apx : ℚ) * (1 + cfg.STOP_LOSS_PERCENT / 100)))
        Tpsl.sl).succeeded with
    | false =>
      simp [sell, get_market_info, place_stop_loss, place_take_profit, hm, he, hsl,
            not_le.mpr hps, entriesIn, exitsReduceOnly, isEntry]
    | true =>
      rcases hfail with hsl2 | htp
      · rw [hsl] at hsl2
        exact absurd hsl2 (by simp)
      · simp [sell, get_market_info, place_stop_loss, place_take_profit, hm, he, hsl,
              htp, not_le.mpr hps, entriesIn, exitsReduceOnly, isEntry]

/-- Claim C9: witness instantiating c9_theorem on the client whose
take-profit orders fail after a filled entry and accepted stop loss. -/
theorem c9_witness :
    (buy defaultConfig c9client 1).1 = false ∧
    entriesIn (buy defaultConfig c9client 1).2 = 1 ∧
    exitsReduceOnly (buy defaultConfig c9client 1).2 = true :=
  (c9_theorem defaultConfig c9client 1 5 100 rfl (by norm_num)).1 rfl (Or.inr rfl)

/-- On a client that accepts every order, buy returns True for any
positive requested size. -/
theorem buy_succeeds (cfg : Config) (c : Client) (q : ℚ) (d : ℕ) (apx : ℚ)
    (hm : c.meta = some d) (hq : 0 < q)
    (hmo : ∀ s, c.market_open true s = MarketResult.filled apx)
    (hor : ∀ (ib : Bool) (s : ℚ) (px : ℤ) (r : Tpsl),
      c.order ib s px r = TriggerResult.ok) :
    (buy cfg c q).1 = true := by
  simp [buy, get_market_info, place_stop_loss, place_take_profit, hm, hmo, hor,
        not_le.mpr hq, TriggerResult.succeeded]

/-- On a client that accepts every order, sell returns True for any
positive requested size. -/
theorem sell_succeeds (cfg : Config) (c : Client) (q : ℚ) (d : ℕ) (apx : ℚ)
    (hm : c.meta = some d) (hq : 0 < q)
    (hmo : ∀ s, c.market_open false s = MarketResult.filled apx)
    (hor : ∀ (ib : Bool) (s : ℚ) (px : ℤ) (r : Tpsl),
      c.order ib s px r = TriggerResult.ok) :
    (sell cfg c q).1 = true := by
  simp [sell, get_market_info, place_stop_loss, place_take_profit, hm, hmo, hor,
        not_le.mpr hq, TriggerResult.succeeded]

/-- Appending to the just-cleared deque yields a one-element window. -/
theorem dequeAppend_nil (p : ℚ) : dequeAppend [] p = [p] := rfl

/-- On a full window with a breakout above the maximum, one cycle runs
the long branch: it attempts buy with the computed size, clears the
deque, and appends the triggering price. -/
theorem run_long_eq (cfg : Config) (c : Client) (b p mx : ℚ) (w : List ℚ)
    (hS : cfg.STOP_LOSS_PERCENT ≠ 0) (hp : p ≠ 0)
    (hlen : w.length = DON_MAX_PERIOD) (hmx : pymax w = some mx) (hgt : mx < p) :
    run_trading_strategy cfg c none b p w =
      (CycleAction.longTrade
        (buy cfg c (roundTo 5
          (max (b * (cfg.RISK_PER_TRADE_PERCENT / 100) /
                (p * cfg.STOP_LOSS_PERCENT / 100)) (1/1000)))).1, [p]) := by
  obtain ⟨mn, hmn⟩ : ∃ mn, pymin w = some mn := by
    cases w with
    | nil => simp [pymax] at hmx
    | cons x xs => exact ⟨_, rfl⟩
  have hnl : ¬ w.length < DON_MAX_PERIOD := by omega
  simp [run_trading_strategy, hnl, hmn, hmx, calc_ok cfg b p hS hp, hgt,
        dequeAppend_nil]

/-- On a full window with a breakdown below the minimum, one cycle runs
the short branch: it attempts sell with the computed size, clears the
deque, and appends the triggering price. -/
theorem run_short_eq (cfg : Config) (c : Client) (b p mn : ℚ) (w : List ℚ)
    (hS : cfg.STOP_LOSS_PERCENT ≠ 0) (hp : p ≠ 0)
    (hlen : w.length = DON_MAX_PERIOD) (hmn : pymin w = some mn) (hlt : p < mn) :
    run_trading_strategy cfg c none b p w =
      (CycleAction.shortTrade
        (sell cfg c (roundTo 5
          (max (b * (cfg.RISK_PER_TRADE_PERCENT / 100) /
                (p * cfg.STOP_LOSS_PERCENT / 100)) (1/1000)))).1, [p]) := by
  obtain ⟨mx, hmx⟩ : ∃ mx, pymax w = some mx := by
    cases w with
    | nil => simp [pymin] at hmn
    | cons x xs => exact ⟨_, rfl⟩
  have hmm : mn ≤ mx := pymin_le_pymax w mn mx hmn hmx
  have hnl : ¬ w.length < DON_MAX_PERIOD := by omega
  have hng : ¬ mx < p := by linarith
  simp [run_trading_strategy, hnl, hmn, hmx, calc_ok cfg b p hS hp, hng, hlt,
        dequeAppend_nil]

/-- Claim C2, corrected: after a LONG breakout or a SHORT breakdown the
deque is cleared and the triggering price appended whatever buy or sell
returned — the boolean result is ignored and last_prices.clear() runs
unconditionally after the call — so the next cycle starts with the
one-element window containing only the triggering price, never with the
old full channel. -/
theorem c2_theorem (cfg : Config) (c : Client) (b p mx mn : ℚ) (w : List ℚ)
    (hS : cfg.STOP_LOSS_PERCENT ≠ 0) (hp : p ≠ 0)
    (hlen : w.length = DON_MAX_PERIOD) :
    (pymax w = some mx → mx < p →
      (run_trading_strategy cfg c none b p w).2 = [p] ∧
      ∃ r : Bool, (run_trading_strategy cfg c none b p w).1 =
        CycleAction.longTrade r) ∧
    (pymin w = some mn → p < mn →
      (run_trading_strategy cfg c none b p w).2 = [p] ∧
      ∃ r : Bool, (run_trading_strategy cfg c none b p w).1 =
        CycleAction.shortTrade r) := by
  constructor
  · intro hmx hgt
    have hrun := run_long_eq cfg c b p mx w hS hp hlen hmx hgt
    rw [hrun]
    exact ⟨rfl, _, rfl⟩
  · intro hmn hlt
    have hrun := run_short_eq cfg c b p mn w hS hp hlen hmn hlt
    rw [hrun]
    exact ⟨rfl, _, rfl⟩

/-- Claim C2: concrete refutation of the claim as stated.  A full flat
window of twelve prices 100, a breakout price 101, and a client on which
the whole buy fails: the cycle ends with the window [101] of length 1 —
cleared and re-seeded — not with the full window preserved. -/
theorem c2_counterexample :
    run_trading_strategy defaultConfig cFail none 1000 101
      (List.replicate 12 100) = (CycleAction.longTrade false, [101]) ∧
    run_trading_strategy defaultConfig cFail none 1000 99
      (List.replicate 12 100) = (CycleAction.shortTrade false, [99]) ∧
    (run_trading_strategy defaultConfig cFail none 1000 101
      (List.replicate 12 100)).2.length ≠ DON_MAX_PERIOD := by
  refine ⟨?_, ?_, ?_⟩
  · with_unfolding_all rfl
  · with_unfolding_all rfl
  · with_unfolding_all decide

/-- Claim C2: witness instantiating c2_theorem on the all-failing client,
once for the long breakout and once for the short breakdown. -/
theorem c2_witness :
    (run_trading_strategy defaultConfig cFail none 1000 101
      (List.replicate 12 100)).2 = [101] ∧
    (run_trading_strategy defaultConfig cFail none 1000 99
      (List.replicate 12 100)).2 = [99] :=
  ⟨((c2_theorem defaultConfig cFail 1000 101 100 100 (List.replicate 12 100)
      (by norm_num [defaultConfig]) (by norm_num)
      (by with_unfolding_all rfl)).1 (by with_unfolding_all rfl) (by norm_num)).1,
   ((c2_theorem defaultConfig cFail 1000 99 100 100 (List.replicate 12 100)
      (by norm_num [defaultConfig]) (by norm_num)
      (by with_unfolding_all rfl)).2 (by with_unfolding_all rfl) (by norm_num)).1⟩

/-- Claim C3, corrected: after a successful trade — a LONG buy on a
breakout or a SHORT sell on a breakdown — the deque is cleared and then
the triggering price is appended by the unconditional append at the end
of the cycle, so the window ends the cycle with length 1 (the triggering
price alone), not length 0; exactly one trade attempt is made on the
breakout. -/
theorem c3_theorem (cfg : Config) (c : Client) (b p mx mn : ℚ) (w : List ℚ)
    (d : ℕ) (apx : ℚ)
    (hS : cfg.STOP_LOSS_PERCENT ≠ 0) (hp : p ≠ 0)
    (hlen : w.length = DON_MAX_PERIOD)
    (hm : c.meta = some d)
    (hmo : ∀ (ib : Bool) (s : ℚ), c.market_open ib s = MarketResult.filled apx)
    (hor : ∀ (ib : Bool) (s : ℚ) (px : ℤ) (r : Tpsl),
      c.order ib s px r = TriggerResult.ok) :
    (pymax w = some mx → mx < p →
      run_trading_strategy cfg c none b p w =
        (CycleAction.longTrade true, [p])) ∧
    (pymin w = some mn → p < mn →
      run_trading_strategy cfg c none b p w =
        (CycleAction.shortTrade true, [p])) := by
  constructor
  · intro hmx hgt
    have hrun := run_long_eq cfg c b p mx w hS hp hlen hmx hgt
    have hbuy := buy_succeeds cfg c
      (roundTo 5 (max (b * (cfg.RISK_PER_TRADE_PERCENT / 100) /
        (p * cfg.STOP_LOSS_PERCENT / 100)) (1/1000))) d apx hm
      (lt_of_lt_of_le (by norm_num) (roundTo5_min _ (le_max_right _ _)))
      (fun s => hmo true s) hor
    rw [hrun, hbuy]
  · intro hmn hlt
    have hrun := run_short_eq cfg c b p mn w hS hp hlen hmn hlt
    have hsell := sell_succeeds cfg c
      (roundTo 5 (max (b * (cfg.RISK_PER_TRADE_PERCENT / 100) /
        (p * cfg.STOP_LOSS_PERCENT / 100)) (1/1000))) d apx hm
      (lt_of_lt_of_le (by norm_num) (roundTo5_min _ (le_max_right _ _)))
      (fun s => hmo false s) hor
    rw [hrun, hsell]

/-- Claim C3: concrete refutation of the length-0 part of the claim as
stated: after a successful breakout buy (and equally after a successful
breakdown sell) the window holds the triggering price, so its length is
1, not 0. -/
theorem c3_counterexample :
    run_trading_strategy defaultConfig cOk none 1000 101
      (List.replicate 12 100) = (CycleAction.longTrade true, [101]) ∧
    run_trading_strategy defaultConfig cOk none 1000 99
      (List.replicate 12 100) = (CycleAction.shortTrade true, [99]) ∧
    (run_trading_strategy defaultConfig cOk none 1000 101
      (List.replicate 12 100)).2.length = 1 := by
  refine ⟨?_, ?_, ?_⟩ <;> with_unfolding_all rfl

/-- Claim C3: witness instantiating c3_theorem on the all-ok client,
once for the long breakout and once for the short breakdown. -/
theorem c3_witness :
    run_trading_strategy defaultConfig cOk none 1000 101
      (List.replicate 12 100) = (CycleAction.longTrade true, [101]) ∧
    run_trading_strategy defaultConfig cOk none 1000 99
      (List.replicate 12 100) = (CycleAction.shortTrade true, [99]) :=
  ⟨(c3_theorem defaultConfig cOk 1000 101 100 100 (List.replicate 12 100) 5 100
      (by norm_num [defaultConfig]) (by norm_num) (by with_unfolding_all rfl)
      rfl (fun _ _ => rfl) (fun _ _ _ _ => rfl)).1 (by with_unfolding_all rfl)
      (by norm_num),
   (c3_theorem defaultConfig cOk 1000 99 100 100 (List.replicate 12 100) 5 100
      (by norm_num [defaultConfig]) (by norm_num) (by with_unfolding_all rfl)
      rfl (fun _ _ => rfl) (fun _ _ _ _ => rfl)).2 (by with_unfolding_all rfl)
      (by norm_num)⟩
